import Mathlib

/-!
# CLI Todo List Manager: a shallow embedding of `src/main.cpp`

The program talks to a MySQL server through the C client library.  The library
and the server are not part of the repository, so the embedding is written
against an abstract client interface `Client σ`: every library call the source
makes is a field of the interface, and `σ` is the state of the connection and
the server as seen through those calls.  Theorems quantified over an arbitrary
`Client σ` hold for every store response.

Conventions:
* a `std::string` is a Lean `String`; it may contain the NUL character;
* a `const char*` handed out by the library or the operating system
  (`mysql_error`, `argv[i]`, the configuration) is modelled by its content;
* `s.c_str()` passed to a C interface, and `std::string(p)` built from a field
  of a fetched row, stop at the first NUL: this is `c_str`;
* `std::cout` and `std::cerr` are the `out` and `err` text of the process;
* `calls` is the sequence of library calls made on the connection handle;
* an exit code is an `Option Int`: `none` means that an exception left `main`
  uncaught and the process was terminated instead of returning (the program has
  no `try` block); what the C++ runtime prints then is not part of `err`;
* memory exhaustion is outside the model.
-/

namespace TodoCli

/-! ## Data model -/

/-- Connection settings of `struct DBConfig`, already resolved from the environment. -/
structure DBConfig where
  host : String := "127.0.0.1"
  user : String := "root"
  pass : String := ""
  dbname : String := "todo_cli_db"
  port : Nat := 3306
  deriving DecidableEq, Repr

/-- One fetched row (`MYSQL_ROW`) of the four-column list query; `none` is a NULL field. -/
structure Row where
  id : Option String
  description : Option String
  done : Option String
  created_at : Option String
  deriving DecidableEq, Repr

/-- The non-null connection handle (`MYSQL*`). -/
inductive MYSQL where
  | handle
  deriving DecidableEq, Repr

/-- Library calls, as recorded in the order the process makes them. -/
inductive Call where
  | init (ok : Bool)
  | real_connect (host user pass : String) (port : Nat)
  | query (q : String)
  | select_db (db : String)
  | real_escape_string (s : String)
  | error
  | affected_rows
  | insert_id
  | store_result
  | free_result
  | close
  deriving DecidableEq, Repr

/-- The client library and the server behind it, as a state machine over `σ`. -/
structure Client (σ : Type) where
  /-- `mysql_init(nullptr)`: was a handle allocated? -/
  init : σ → Bool
  /-- `mysql_real_connect`: did the handshake succeed? -/
  real_connect : DBConfig → σ → Bool × σ
  /-- `mysql_query`: return code (zero is success) and the new state. -/
  query : String → σ → Int × σ
  /-- `mysql_select_db`: return code (zero is success) and the new state. -/
  select_db : String → σ → Int × σ
  /-- `mysql_real_escape_string`: the bytes written to the output buffer, whose count
  is the value returned; `none` is the error return `(unsigned long)-1`. -/
  real_escape_string : σ → String → Option String
  /-- `mysql_error`: diagnostic of the last call. -/
  error : σ → String
  /-- `mysql_affected_rows` (an unsigned 64-bit count). -/
  affected_rows : σ → Nat
  /-- `mysql_insert_id` (an unsigned 64-bit value). -/
  insert_id : σ → Nat
  /-- `mysql_store_result`: the buffered result set, `none` for a null pointer. -/
  store_result : σ → Option (List Row) × σ

/-- State of one process run: both output streams, the calls made, the store. -/
structure Proc (σ : Type) where
  out : String
  err : String
  calls : List Call
  st : σ

variable {σ : Type}

/-- A fresh process over store state `s`. -/
def Proc.start (s : σ) : Proc σ := ⟨"", "", [], s⟩

/-- Record one library call. -/
def Proc.log (p : Proc σ) (c : Call) : Proc σ := { p with calls := p.calls ++ [c] }

/-- Write to `std::cout`. -/
def Proc.cout (p : Proc σ) (s : String) : Proc σ := { p with out := p.out ++ s }

/-- Write to `std::cerr`. -/
def Proc.cerr (p : Proc σ) (s : String) : Proc σ := { p with err := p.err ++ s }

/-- The NUL character. -/
def NUL : Char := Char.ofNat 0

/-- The bytes of `s` a C interface sees: everything before the first NUL. -/
def c_str (s : String) : String := ⟨s.data.takeWhile (fun ch => ch != NUL)⟩

/-! ## The program -/

/-- Embedding of `connect_db` (main.cpp 16-34). -/
def connect_db (c : Client σ) (cfg : DBConfig) (p : Proc σ) : Option MYSQL × Proc σ :=
  let ok := c.init p.st
  let p := p.log (.init ok)
  if !ok then (none, p) else
  let r := c.real_connect cfg p.st
  let p := { p.log (.real_connect cfg.host cfg.user cfg.pass cfg.port) with st := r.2 }
  if !r.1 then (none, p.log .close) else
  let create_db := "CREATE DATABASE IF NOT EXISTS " ++ cfg.dbname ++ ";"
  let r := c.query (c_str create_db) p.st
  let p := { p.log (.query (c_str create_db)) with st := r.2 }
  if r.1 ≠ 0 then (none, p.log .close) else
  let r := c.select_db cfg.dbname p.st
  let p := { p.log (.select_db cfg.dbname) with st := r.2 }
  if r.1 ≠ 0 then (none, p.log .close) else
  (some .handle, p)

/-- Embedding of `escape_str` (main.cpp 36-42).  The output buffer is cut to the length
the library returns.  On the error return `(unsigned long)-1` the call `out.resize(len)`
throws `std::length_error`: this is the result `none`. -/
def escape_str (c : Client σ) (s : String) (p : Proc σ) : Option String × Proc σ :=
  match c.real_escape_string p.st s with
  | some out => (some out, p.log (.real_escape_string s))
  | none => (none, p.log (.real_escape_string s))

/-- The statement of `ensure_schema`. -/
def schema_stmt : String :=
  "CREATE TABLE IF NOT EXISTS todos (" ++
  "id INT AUTO_INCREMENT PRIMARY KEY," ++
  "description TEXT NOT NULL," ++
  "done TINYINT(1) NOT NULL DEFAULT 0," ++
  "created_at TIMESTAMP DEFAULT CURRENT_TIMESTAMP" ++
  ");"

/-- Embedding of `ensure_schema` (main.cpp 44-53). -/
def ensure_schema (c : Client σ) (p : Proc σ) : Bool × Proc σ :=
  let r := c.query schema_stmt p.st
  (r.1 == 0, { p.log (.query schema_stmt) with st := r.2 })

/-- The character `'`. -/
def QUOTE : Char := Char.ofNat 39

/-- The text `'`. -/
def quote_str : String := ⟨[QUOTE]⟩

/-- The statement text `cmd_add` builds around the escaped description. -/
def insert_stmt (esc : String) : String :=
  "INSERT INTO todos (description) VALUES (" ++ quote_str ++ esc ++ quote_str ++ ")"

/-- Embedding of `cmd_add` (main.cpp 55-64).  The result `none` is the exception of
`escape_str` passing through: nothing after line 56 runs. -/
def cmd_add (c : Client σ) (desc : String) (p : Proc σ) : Option Int × Proc σ :=
  let e := escape_str c desc p
  match e.1 with
  | none => (none, e.2)
  | some esc =>
    let q := insert_stmt esc
    let r := c.query (c_str q) e.2.st
    let p := { e.2.log (.query (c_str q)) with st := r.2 }
    if r.1 ≠ 0 then
      (some 1, ((p.log .error).cerr ("Insert failed: " ++ c.error p.st ++ "\n")))
    else
      (some 0,
        ((p.log .insert_id).cout ("Added task id=" ++ toString (c.insert_id p.st) ++ "\n")))

/-- The statement of `cmd_list`. -/
def select_stmt : String :=
  "SELECT id, description, done, created_at FROM todos ORDER BY id ASC"

/-- The line `cmd_list` prints for one fetched row (main.cpp 80-84). -/
def print_row (row : Row) : String :=
  let id := (row.id.map c_str).getD ""
  let desc := (row.description.map c_str).getD ""
  let done := (row.done.map c_str).getD "0"
  let created := (row.created_at.map c_str).getD ""
  id ++ " [" ++ (if done = "1" then "x" else " ") ++ "] " ++ desc ++ " (" ++ created ++ ")\n"

/-- Embedding of `cmd_list` (main.cpp 66-88). -/
def cmd_list (c : Client σ) (p : Proc σ) : Int × Proc σ :=
  let r := c.query select_stmt p.st
  let p := { p.log (.query select_stmt) with st := r.2 }
  if r.1 ≠ 0 then
    (1, ((p.log .error).cerr ("Select failed: " ++ c.error p.st ++ "\n")))
  else
  let res := c.store_result p.st
  let p := { p.log .store_result with st := res.2 }
  match res.1 with
  | none => (1, ((p.log .error).cerr ("No results: " ++ c.error p.st ++ "\n")))
  | some rows =>
    let p := rows.foldl (fun acc row => acc.cout (print_row row)) p
    (0, p.log .free_result)

/-- The statement text of `cmd_done`. -/
def update_stmt (id : String) : String := "UPDATE todos SET done=1 WHERE id=" ++ id

/-- Embedding of `cmd_done` (main.cpp 90-102). -/
def cmd_done (c : Client σ) (id : String) (p : Proc σ) : Int × Proc σ :=
  let q := update_stmt id
  let r := c.query (c_str q) p.st
  let p := { p.log (.query (c_str q)) with st := r.2 }
  if r.1 ≠ 0 then
    (1, ((p.log .error).cerr ("Update failed: " ++ c.error p.st ++ "\n")))
  else if c.affected_rows p.st = 0 then
    (2, ((p.log .affected_rows).cerr ("No task with id=" ++ id ++ "\n")))
  else
    (0, ((p.log .affected_rows).cout ("Marked done: " ++ id ++ "\n")))

/-- The statement text of `cmd_remove`. -/
def delete_stmt (id : String) : String := "DELETE FROM todos WHERE id=" ++ id

/-- Embedding of `cmd_remove` (main.cpp 104-116). -/
def cmd_remove (c : Client σ) (id : String) (p : Proc σ) : Int × Proc σ :=
  let q := delete_stmt id
  let r := c.query (c_str q) p.st
  let p := { p.log (.query (c_str q)) with st := r.2 }
  if r.1 ≠ 0 then
    (1, ((p.log .error).cerr ("Delete failed: " ++ c.error p.st ++ "\n")))
  else if c.affected_rows p.st = 0 then
    (2, ((p.log .affected_rows).cerr ("No task with id=" ++ id ++ "\n")))
  else
    (0, ((p.log .affected_rows).cout ("Removed: " ++ id ++ "\n")))

/-- The text `usage` writes (main.cpp 118-126). -/
def usage_text (prog : String) : String :=
  "Usage:\n" ++
  "  " ++ prog ++ " add \"task description\"\n" ++
  "  " ++ prog ++ " list\n" ++
  "  " ++ prog ++ " done <id>\n" ++
  "  " ++ prog ++ " remove <id>\n" ++
  "Environment variables for DB connection:\n" ++
  "  TODO_DB_HOST, TODO_DB_USER, TODO_DB_PASS, TODO_DB_NAME, TODO_DB_PORT\n"

/-- Embedding of `usage`. -/
def usage (prog : String) (p : Proc σ) : Proc σ := p.cout (usage_text prog)

/-- The verb dispatch of `main` (main.cpp 142-157); `args` is `argv[1..]`.  The result
is the value of `rc`, or `none` when `cmd_add` was left by an exception. -/
def dispatch (c : Client σ) (prog : String) (args : List String) (p : Proc σ) :
    Option Int × Proc σ :=
  match args with
  | [] => (some 1, usage prog p)
  | cmd :: rest =>
    if cmd = "add" then
      match rest with
      | [] => (some 1, usage prog p)
      | a :: _ => cmd_add c a p
    else if cmd = "list" then
      (some (cmd_list c p).1, (cmd_list c p).2)
    else if cmd = "done" then
      match rest with
      | [] => (some 1, usage prog p)
      | a :: _ => (some (cmd_done c a p).1, (cmd_done c a p).2)
    else if cmd = "remove" then
      match rest with
      | [] => (some 1, usage prog p)
      | a :: _ => (some (cmd_remove c a p).1, (cmd_remove c a p).2)
    else
      (some 1, usage prog p)

/-- Embedding of `main` (main.cpp 128-161): `prog` is `argv[0]`, `args` is `argv[1..]`,
so `argc = args.length + 1`; `s` is the store the process meets.  When the dispatch is
left by an exception, line 159 (`mysql_close`) is not reached and `main` does not
return: the exit code is `none`. -/
def main (c : Client σ) (cfg : DBConfig) (prog : String) (args : List String) (s : σ) :
    Option Int × Proc σ :=
  let p := Proc.start s
  match args with
  | [] => (some 1, usage prog p)
  | _ :: _ =>
    let r := connect_db c cfg p
    match r.1 with
    | none =>
      (some 1, r.2.cerr
        "Failed to connect to MySQL. Ensure service is running and credentials are correct.\n")
    | some _ =>
      let e := ensure_schema c r.2
      if !e.1 then
        (some 1, ((e.2.log .error).cerr
          ("Failed to ensure schema: " ++ c.error e.2.st ++ "\n")).log .close)
      else
        let d := dispatch c prog args e.2
        match d.1 with
        | none => (none, d.2)
        | some rc => (some rc, d.2.log .close)

/-! ## A model of the store

The server and the client library are outside the repository.  The model below
covers what the program relies on: the escaping done by
`mysql_real_escape_string` (default SQL mode, a character set in which the
special characters are single bytes), how the server reads a single-quoted
string literal, and the effect of the six statements the program sends on a
`todos` table.  A statement outside this grammar is answered with a syntax
error; no theorem below depends on that answer. -/

def BACKSLASH : Char := Char.ofNat 92
def DQUOTE : Char := Char.ofNat 34
def CTRL_Z : Char := Char.ofNat 26
def LF : Char := Char.ofNat 10
def CR : Char := Char.ofNat 13
def TAB : Char := Char.ofNat 9
def BACKSPACE : Char := Char.ofNat 8

/-- Modelled from the spec: the library routine behind the Sanitizer, which is not in
the sources, where it succeeds (default SQL mode).  Per character, `mysql_real_escape_string` puts a backslash before NUL
(written `0`), newline (`n`), carriage return (`r`), backslash, both quote characters
and Control-Z (`Z`), and copies every other character. -/
def escape_char (ch : Char) : List Char :=
  if ch = NUL then [BACKSLASH, '0']
  else if ch = LF then [BACKSLASH, 'n']
  else if ch = CR then [BACKSLASH, 'r']
  else if ch = BACKSLASH then [BACKSLASH, BACKSLASH]
  else if ch = QUOTE then [BACKSLASH, QUOTE]
  else if ch = DQUOTE then [BACKSLASH, DQUOTE]
  else if ch = CTRL_Z then [BACKSLASH, 'Z']
  else [ch]

/-- Modelled from the spec: `mysql_real_escape_string` of the client library, which is
not in the sources, on a whole string. -/
def mysql_real_escape_string (s : String) : String := ⟨s.data.flatMap escape_char⟩

/-- Modelled from the spec: the character(s) a backslash escape stands for inside a
string literal of the store. -/
def unescape_char (ch : Char) : List Char :=
  if ch = '0' then [NUL]
  else if ch = 'b' then [BACKSPACE]
  else if ch = 'n' then [LF]
  else if ch = 'r' then [CR]
  else if ch = 't' then [TAB]
  else if ch = 'Z' then [CTRL_Z]
  else if ch = '%' then [BACKSLASH, '%']
  else if ch = '_' then [BACKSLASH, '_']
  else [ch]

/-- Modelled from the spec: the store reading a single-quoted literal whose opening
quote has been consumed.  The result is the literal's value and the text after
its closing quote; `none` when the literal is not terminated. -/
def read_literal : List Char → Option (List Char × List Char)
  | [] => none
  | [ch] => if ch = QUOTE then some ([], []) else none
  | ch :: e :: rest =>
    if ch = BACKSLASH then
      (read_literal rest).map (fun r => (unescape_char e ++ r.1, r.2))
    else if ch = QUOTE then
      if e = QUOTE then (read_literal rest).map (fun r => (QUOTE :: r.1, r.2))
      else some ([], e :: rest)
    else (read_literal (e :: rest)).map (fun r => (ch :: r.1, r.2))

/-- Remove the leading text `pre` from `s`, if `s` starts with it. -/
def drop_head : List Char → List Char → Option (List Char)
  | [], s => some s
  | _ :: _, [] => none
  | a :: pre, b :: s => if a = b then drop_head pre s else none

/-- An unsigned decimal integer literal. -/
def read_nat (cs : List Char) : Option Nat :=
  if cs ≠ [] ∧ cs.all Char.isDigit then
    some (cs.foldl (fun n ch => 10 * n + (ch.toNat - 48)) 0)
  else none

/-- The statements the model understands. -/
inductive Stmt where
  | create_db
  | create_table
  | insert (description : String)
  | select
  | mark_done (id : Nat)
  | delete (id : Nat)
  deriving DecidableEq, Repr

/-- Modelled from the spec: the store, which is not in the sources, recognising one of
the statements the program sends. -/
def read_stmt (q : List Char) : Option Stmt :=
  match drop_head ("INSERT INTO todos (description) VALUES (".data ++ [QUOTE]) q with
  | some rest =>
    match read_literal rest with
    | some (d, [')']) => some (.insert ⟨d⟩)
    | _ => none
  | none =>
  if q = select_stmt.data then some .select else
  match drop_head "UPDATE todos SET done=1 WHERE id=".data q with
  | some rest => (read_nat rest).map .mark_done
  | none =>
  match drop_head "DELETE FROM todos WHERE id=".data q with
  | some rest => (read_nat rest).map .delete
  | none =>
  if (drop_head "CREATE DATABASE IF NOT EXISTS ".data q).isSome then some .create_db
  else if q = schema_stmt.data then some .create_table
  else none

/-- A row of the `todos` table. -/
structure Task where
  id : Nat
  description : String
  done : Bool
  created_at : String
  deriving DecidableEq, Repr

/-- Modelled from the spec: the store, as one `todos` table with its auto-increment
counter and clock, plus the status the connection keeps of the last statement. -/
structure Db where
  todos : List Task
  auto_increment : Nat
  now : String
  last_error : String
  last_affected : Nat
  last_insert_id : Nat
  result : Option (List Row)
  deriving DecidableEq, Repr

/-- The store before any task was added. -/
def Db.empty (now : String) : Db := ⟨[], 1, now, "", 0, 0, none⟩

/-- How the store sends a task in a result set: every column as text. -/
def Task.toRow (t : Task) : Row :=
  ⟨some (toString t.id), some t.description, some (if t.done then "1" else "0"),
    some t.created_at⟩

/-- The rows of the table in ascending `id` order. -/
def Db.ordered (db : Db) : List Task :=
  db.todos.insertionSort (fun a b => a.id ≤ b.id)

/-- Modelled from the spec: the effect of one statement on the store.  The affected-rows
count of `UPDATE` is the number of rows the statement actually changed. -/
def Db.exec (q : String) (db : Db) : Int × Db :=
  match read_stmt q.data with
  | none =>
    (1, { db with last_error := "You have an error in your SQL syntax", result := none })
  | some .create_db => (0, { db with last_error := "", last_affected := 1, result := none })
  | some .create_table => (0, { db with last_error := "", last_affected := 0, result := none })
  | some (.insert d) =>
    (0, { db with
      todos := db.todos ++ [⟨db.auto_increment, d, false, db.now⟩]
      auto_increment := db.auto_increment + 1
      last_error := "", last_affected := 1, last_insert_id := db.auto_increment
      result := none })
  | some .select =>
    (0, { db with last_error := "", result := some (db.ordered.map Task.toRow) })
  | some (.mark_done n) =>
    (0, { db with
      todos := db.todos.map (fun t => if t.id = n then { t with done := true } else t)
      last_error := ""
      last_affected := (db.todos.filter (fun t => t.id = n && !t.done)).length
      result := none })
  | some (.delete n) =>
    (0, { db with
      todos := db.todos.filter (fun t => t.id ≠ n)
      last_error := ""
      last_affected := (db.todos.filter (fun t => t.id = n)).length
      result := none })

/-- Modelled from the spec: the client library over the model store; the server is
reachable, runs in the default SQL mode (so the escaping routine succeeds) and accepts
the program's statements. -/
def mysql : Client Db where
  init _ := true
  real_connect _ db := (true, db)
  query q db := db.exec q
  select_db _ db := (0, db)
  real_escape_string _ s := some (mysql_real_escape_string s)
  error db := db.last_error
  affected_rows db := db.last_affected
  insert_id db := db.last_insert_id
  store_result db := (db.result, { db with result := none })

/-- A store that answers every call the same way, whatever was sent; `escape_ok` false
makes the escaping routine report its error. -/
structure Script where
  init_ok : Bool := true
  connect_ok : Bool := true
  create_db_rc : Int := 0
  select_db_rc : Int := 0
  schema_rc : Int := 0
  query_rc : Int := 0
  escape_ok : Bool := true
  error : String := ""
  affected : Nat := 0
  insert_id : Nat := 0
  result : Option (List Row) := none

/-- The client of a scripted store; statements other than the two `CREATE`s get `query_rc`. -/
def scripted (k : Script) : Client Unit where
  init _ := k.init_ok
  real_connect _ _ := (k.connect_ok, ())
  query q _ :=
    if (drop_head "CREATE DATABASE".data q.data).isSome then (k.create_db_rc, ())
    else if (drop_head "CREATE TABLE".data q.data).isSome then (k.schema_rc, ())
    else (k.query_rc, ())
  select_db _ _ := (k.select_db_rc, ())
  real_escape_string _ s := if k.escape_ok then some (mysql_real_escape_string s) else none
  error _ := k.error
  affected_rows _ := k.affected
  insert_id _ := k.insert_id
  store_result _ := (k.result, ())

/-! ## The contract in the spec's words -/

/-- The exit-code contract of `done` and `remove` as the spec words it: 1 on a store
error, 2 if no task matched, 0 on success. -/
def exit_contract (query_rc : Int) (affected : Nat) : Int :=
  if query_rc ≠ 0 then 1 else if affected = 0 then 2 else 0

/-- The listing line of one row as the spec words it: `<id> [<m>] <description> (<created_at>)`
and a newline, a NULL text printed as empty, a NULL `done` read as `0`, the marker `x`
exactly for `1`. -/
def list_line (row : Row) : String :=
  row.id.getD "" ++ " [" ++ (if row.done.getD "0" = "1" then "x" else " ") ++ "] " ++
    row.description.getD "" ++ " (" ++ row.created_at.getD "" ++ ")\n"

/-- Lines written one after the other. -/
def lines_text : List String → String
  | [] => ""
  | l :: ls => l ++ lines_text ls

/-- Does the text contain no NUL character? -/
def nul_free (s : String) : Bool := s.data.all (fun ch => ch != NUL)

/-- A row none of whose texts contains a NUL character. -/
def Row.nul_free (row : Row) : Bool :=
  (row.id.all TodoCli.nul_free) && (row.description.all TodoCli.nul_free) &&
  (row.done.all TodoCli.nul_free) && (row.created_at.all TodoCli.nul_free)

/-- A row with every text cut at its first NUL character. -/
def Row.c_view (row : Row) : Row :=
  ⟨row.id.map c_str, row.description.map c_str, row.done.map c_str, row.created_at.map c_str⟩

/-! ## Predicates and sample inputs used by the theorems -/

/-- A result set whose description holds a NUL character. -/
def nul_rows : List Row := [⟨some "1", some "a\x00b", some "0", some "t"⟩]

/-- A result set with NULL fields and both kinds of `done` text. -/
def sample_rows : List Row :=
  [⟨some "1", some "buy milk", some "1", some "t1"⟩, ⟨some "2", none, none, none⟩,
   ⟨none, some "x", some "0", some "t3"⟩]

/-- Well-formed store: every identifier in use is below the auto-increment counter and
the clock text has no NUL character. -/
def Db.wf (db : Db) : Bool :=
  db.todos.all (fun t => decide (t.id < db.auto_increment)) && nul_free db.now

/-- No call of the list closes the connection or obtains a handle. -/
def quiet (k : List Call) : Bool := k.all (fun x => x != .close && x != .init true)

/-- The statements of the Task Repository: INSERT, SELECT, UPDATE and DELETE. -/
def is_repository_stmt (q : String) : Bool :=
  (drop_head "INSERT".data q.data).isSome || (drop_head "SELECT".data q.data).isSome ||
  (drop_head "UPDATE".data q.data).isSome || (drop_head "DELETE".data q.data).isSome

/-- The statement `connect_db` sends to create the database. -/
def create_db_stmt (cfg : DBConfig) : String :=
  c_str ("CREATE DATABASE IF NOT EXISTS " ++ cfg.dbname ++ ";")

/-- The text `main` writes when `connect_db` returns no connection. -/
def connect_failure_text : String :=
  "Failed to connect to MySQL. Ensure service is running and credentials are correct.\n"

/-- The model store after `add "buy milk"` on the empty store. -/
def after_add : Db := (main mysql {} "todo" ["add", "buy milk"] (Db.empty "t")).2.st

/-- The model store after the first `done 1`. -/
def after_done : Db := (main mysql {} "todo" ["done", "1"] after_add).2.st

/-- The model store after the second `done 1`. -/
def after_second_done : Db := (main mysql {} "todo" ["done", "1"] after_done).2.st

/-- An identifier argument with quote characters in it. -/
def quoted_id : String := "0 OR description='x'"

/-! ## Basic facts -/

theorem c_str_of_nul_free (s : String) (h : nul_free s = true) : c_str s = s := by
  unfold c_str nul_free at *
  have : s.data.takeWhile (fun ch => ch != NUL) = s.data := by
    rw [List.takeWhile_eq_self_iff]
    intro x hx
    exact (List.all_eq_true.mp h) x hx
  rw [this]

theorem print_row_eq (row : Row) : print_row row = list_line row.c_view := by
  cases row with
  | mk a b d e => cases a <;> cases b <;> cases d <;> cases e <;> rfl

theorem c_view_of_nul_free (row : Row) (h : row.nul_free = true) : row.c_view = row := by
  cases row with
  | mk a b d e =>
    simp only [Row.nul_free, Bool.and_eq_true] at h
    obtain ⟨⟨⟨ha, hb⟩, hd⟩, he⟩ := h
    cases a <;> cases b <;> cases d <;> cases e <;>
      simp_all [Row.c_view, c_str_of_nul_free]

theorem fold_cout_out (rows : List Row) (p : Proc σ) :
    (rows.foldl (fun acc row => acc.cout (print_row row)) p).out
      = p.out ++ lines_text (rows.map print_row) := by
  induction rows generalizing p with
  | nil => simp [lines_text]
  | cons r rs ih =>
    simp only [List.foldl_cons, List.map_cons, lines_text]
    rw [ih]
    simp [Proc.cout, String.append_assoc]

theorem fold_cout_rest (rows : List Row) (p : Proc σ) :
    (rows.foldl (fun acc row => acc.cout (print_row row)) p).err = p.err ∧
    (rows.foldl (fun acc row => acc.cout (print_row row)) p).calls = p.calls ∧
    (rows.foldl (fun acc row => acc.cout (print_row row)) p).st = p.st := by
  induction rows generalizing p with
  | nil => simp
  | cons r rs ih =>
    simp only [List.foldl_cons]
    rw [(ih _).1, (ih _).2.1, (ih _).2.2]
    simp [Proc.cout]

/-! ## Exit codes of `done` and `remove` -/

/-- C1: for every id and every store response, `cmd_done` and `cmd_remove` return 1
exactly when the store rejects the statement (then the failure text and the store's
diagnostic go to standard error, nothing to standard output), 2 exactly when the
statement is accepted with an affected-rows count of 0 (then `No task with id=<id>`
goes to standard error), and 0 otherwise (then the confirmation goes to standard
output); both codes are the same function `exit_contract` of the store's response. -/
theorem cmd_done_remove_contract (c : Client σ) (id : String) (p : Proc σ) :
    let u := c.query (c_str (update_stmt id)) p.st
    let d := c.query (c_str (delete_stmt id)) p.st
    let rd := cmd_done c id p
    let rr := cmd_remove c id p
    (rd.1 = exit_contract u.1 (c.affected_rows u.2) ∧
      rr.1 = exit_contract d.1 (c.affected_rows d.2)) ∧
    ((rd.1 = 1 ↔ u.1 ≠ 0) ∧ (rd.1 = 2 ↔ (u.1 = 0 ∧ c.affected_rows u.2 = 0)) ∧
      (rd.1 = 0 ↔ (u.1 = 0 ∧ c.affected_rows u.2 ≠ 0))) ∧
    ((rr.1 = 1 ↔ d.1 ≠ 0) ∧ (rr.1 = 2 ↔ (d.1 = 0 ∧ c.affected_rows d.2 = 0)) ∧
      (rr.1 = 0 ↔ (d.1 = 0 ∧ c.affected_rows d.2 ≠ 0))) ∧
    (rd.1 = 1 → rd.2.err = p.err ++ ("Update failed: " ++ c.error u.2 ++ "\n") ∧
      rd.2.out = p.out) ∧
    (rr.1 = 1 → rr.2.err = p.err ++ ("Delete failed: " ++ c.error d.2 ++ "\n") ∧
      rr.2.out = p.out) ∧
    (rd.1 = 2 → rd.2.err = p.err ++ ("No task with id=" ++ id ++ "\n") ∧ rd.2.out = p.out) ∧
    (rr.1 = 2 → rr.2.err = p.err ++ ("No task with id=" ++ id ++ "\n") ∧ rr.2.out = p.out) ∧
    (rd.1 = 0 → rd.2.out = p.out ++ ("Marked done: " ++ id ++ "\n") ∧ rd.2.err = p.err) ∧
    (rr.1 = 0 → rr.2.out = p.out ++ ("Removed: " ++ id ++ "\n") ∧ rr.2.err = p.err) := by
  intro u d rd rr
  have hrd : rd = cmd_done c id p := rfl
  have hrr : rr = cmd_remove c id p := rfl
  have hu : u = c.query (c_str (update_stmt id)) p.st := rfl
  have hd : d = c.query (c_str (delete_stmt id)) p.st := rfl
  simp only [cmd_done, cmd_remove, ← hu, ← hd] at hrd hrr
  by_cases h1 : u.1 = 0 <;> by_cases h2 : c.affected_rows u.2 = 0 <;>
    by_cases h3 : d.1 = 0 <;> by_cases h4 : c.affected_rows d.2 = 0 <;>
    simp [hrd, hrr, h1, h2, h3, h4, exit_contract, Proc.log, Proc.cerr, Proc.cout]

/-- C1, at a store that accepts the statement and reports no affected row. -/
theorem cmd_done_remove_contract_witness :
    (cmd_done (scripted { affected := 0 }) "999" (Proc.start ())).1 = 2 ∧
    (cmd_remove (scripted { affected := 0 }) "999" (Proc.start ())).1 = 2 :=
  ⟨((cmd_done_remove_contract (scripted { affected := 0 }) "999" (Proc.start ())).2.1.2.1).mpr
      ⟨by decide, by decide⟩,
   ((cmd_done_remove_contract (scripted { affected := 0 }) "999" (Proc.start ())).2.2.1.2.1).mpr
      ⟨by decide, by decide⟩⟩

/-! ## Escaping and the store's literals -/

theorem escape_char_nul_free (ch : Char) : ∀ x ∈ escape_char ch, x ≠ NUL := by
  intro x hx
  unfold escape_char at hx
  split_ifs at hx with h1 h2 h3 h4 h5 h6 h7 <;> simp at hx
  all_goals first
    | (rcases hx with rfl | rfl <;> decide)
    | (subst hx; exact h1)

theorem escape_nul_free (s : String) : nul_free (mysql_real_escape_string s) = true := by
  simp only [nul_free, mysql_real_escape_string, List.all_eq_true, List.mem_flatMap]
  rintro x ⟨ch, -, hx⟩
  simpa using escape_char_nul_free ch x hx

theorem drop_head_append (pre s : List Char) : drop_head pre (pre ++ s) = some s := by
  induction pre with
  | nil => cases s <;> rfl
  | cons a pre ih => simp [drop_head, ih]

theorem read_literal_plain (ch : Char) (l : List Char) (h1 : ch ≠ BACKSLASH) (h2 : ch ≠ QUOTE)
    (hl : l ≠ []) :
    read_literal (ch :: l) = (read_literal l).map (fun r => (ch :: r.1, r.2)) := by
  cases l with
  | nil => exact absurd rfl hl
  | cons e rest => simp [read_literal, h1, h2]

theorem unescape_backslash : unescape_char BACKSLASH = [BACKSLASH] := by decide

theorem unescape_quote : unescape_char QUOTE = [QUOTE] := by decide

theorem unescape_dquote : unescape_char DQUOTE = [DQUOTE] := by decide

theorem read_literal_step (ch : Char) (l : List Char) (v rest : List Char) (hl : l ≠ [])
    (ih : read_literal l = some (v, rest)) :
    read_literal (escape_char ch ++ l) = some (ch :: v, rest) := by
  unfold escape_char
  split_ifs with h1 h2 h3 h4 h5 h6 h7
  · subst h1; simp [read_literal, ih, unescape_char]
  · subst h2; simp [read_literal, ih, unescape_char]
  · subst h3; simp [read_literal, ih, unescape_char]
  · subst h4; simp [read_literal, ih, unescape_backslash]
  · subst h5; simp [read_literal, ih, unescape_quote]
  · subst h6; simp [read_literal, ih, unescape_dquote]
  · subst h7; simp [read_literal, ih, unescape_char]
  · simp [read_literal_plain ch l h4 h5 hl, ih]

theorem read_literal_escape (d rest : List Char) (h : rest.head? ≠ some QUOTE) :
    read_literal (d.flatMap escape_char ++ QUOTE :: rest) = some (d, rest) := by
  induction d with
  | nil =>
    cases rest with
    | nil => simp [read_literal]
    | cons e r =>
      have he : e ≠ QUOTE := by simpa using h
      have hq : QUOTE ≠ BACKSLASH := by decide
      simp [read_literal, he, hq]
  | cons ch d ih =>
    simp only [List.flatMap_cons, List.append_assoc]
    exact read_literal_step ch _ d rest (by simp) ih

theorem insert_stmt_data (e : String) :
    (insert_stmt e).data
      = ("INSERT INTO todos (description) VALUES (".data ++ [QUOTE]) ++ (e.data ++ [QUOTE, ')']) := by
  simp [insert_stmt, quote_str, String.data_append]

theorem nul_free_append (a b : String) : nul_free (a ++ b) = (nul_free a && nul_free b) := by
  simp [nul_free, String.data_append]

theorem insert_stmt_nul_free (e : String) (h : nul_free e = true) :
    nul_free (insert_stmt e) = true := by
  simp only [insert_stmt, nul_free_append, h, Bool.and_true, Bool.true_and, Bool.and_eq_true]
  decide

theorem read_insert_stmt (d : String) :
    read_stmt (c_str (insert_stmt (mysql_real_escape_string d))).data = some (.insert d) := by
  rw [c_str_of_nul_free _ (insert_stmt_nul_free _ (escape_nul_free d))]
  rw [insert_stmt_data]
  unfold read_stmt
  rw [drop_head_append]
  have := read_literal_escape d.data [')'] (by decide)
  simp only [mysql_real_escape_string]
  rw [this]
  rfl

/-! ## Adding and listing -/

/-- When the escaping routine reports its error, `cmd_add` is left by the exception
right after the call: nothing is sent and nothing is written. -/
theorem cmd_add_aborts (c : Client σ) (desc : String) (p : Proc σ)
    (he : c.real_escape_string p.st desc = none) :
    cmd_add c desc p = (none, p.log (.real_escape_string desc)) := by
  simp [cmd_add, escape_str, he]

/-- When the escaping routine succeeds, `cmd_add` returns 0 exactly when the store
accepts the INSERT, and then writes `Added task id=<n>` and a newline to standard
output with `n` the identifier the store reports for the insert; otherwise it returns
1, writes `Insert failed: ` and the diagnostic to standard error and nothing to
standard output.  The statement sent names only the description column. -/
theorem cmd_add_returns (c : Client σ) (desc esc : String) (p : Proc σ)
    (he : c.real_escape_string p.st desc = some esc) :
    let stmt := c_str (insert_stmt esc)
    let q := c.query stmt p.st
    let r := cmd_add c desc p
    (r.1 = some 0 ↔ q.1 = 0) ∧ (r.1 = some 1 ↔ q.1 ≠ 0) ∧
    (r.1 = some 0 →
      r.2.out = p.out ++ ("Added task id=" ++ toString (c.insert_id q.2) ++ "\n") ∧
      r.2.err = p.err) ∧
    (r.1 = some 1 → r.2.err = p.err ++ ("Insert failed: " ++ c.error q.2 ++ "\n") ∧
      r.2.out = p.out) ∧
    (∃ last, r.2.calls = p.calls ++ [.real_escape_string desc, .query stmt, last] ∧
      (last = .error ∨ last = .insert_id)) := by
  intro stmt q r
  have hr : r = cmd_add c desc p := rfl
  have hq : q = c.query stmt p.st := rfl
  have hs : stmt = c_str (insert_stmt esc) := rfl
  simp only [cmd_add, escape_str, he, Proc.log, ← hs, ← hq] at hr
  refine ⟨?_, ?_, ?_, ?_, ?_⟩
  · by_cases h : q.1 = 0 <;> simp [hr, h]
  · by_cases h : q.1 = 0 <;> simp [hr, h]
  · by_cases h : q.1 = 0 <;> simp [hr, h, Proc.cout]
  · by_cases h : q.1 = 0 <;> simp [hr, h, Proc.cerr]
  · by_cases h : q.1 = 0 <;> simp [hr, h, Proc.cerr, Proc.cout]

set_option maxRecDepth 100000 in
/-- C6: with a store for which the escaping routine reports its error (the return value
`(unsigned long)-1`), `cmd_add` returns neither 0 nor 1: it is left by an exception
right after the escaping call, having sent no INSERT and written nothing, in particular
no `Insert failed: ` line; `main` then does not return either. -/
theorem cmd_add_escape_error :
    (cmd_add (scripted { escape_ok := false }) "buy milk" (Proc.start ())).1 = none ∧
    (cmd_add (scripted { escape_ok := false }) "buy milk" (Proc.start ())).1 ≠ some 0 ∧
    (cmd_add (scripted { escape_ok := false }) "buy milk" (Proc.start ())).1 ≠ some 1 ∧
    (cmd_add (scripted { escape_ok := false }) "buy milk" (Proc.start ())).2.calls
      = [.real_escape_string "buy milk"] ∧
    (cmd_add (scripted { escape_ok := false }) "buy milk" (Proc.start ())).2.out = "" ∧
    (cmd_add (scripted { escape_ok := false }) "buy milk" (Proc.start ())).2.err = "" ∧
    (main (scripted { escape_ok := false }) {} "todo" ["add", "buy milk"] ()).1 = none ∧
    (main (scripted { escape_ok := false }) {} "todo" ["add", "buy milk"] ()).2.out = "" := by
  decide

/-- C5 as stated fails: a description holding a NUL character is printed only up to
that character. -/
theorem cmd_list_nul_counterexample :
    (cmd_list (scripted { result := some nul_rows }) (Proc.start ())).1 = 0 ∧
    (cmd_list (scripted { result := some nul_rows }) (Proc.start ())).2.out = "1 [ ] a (t)\n" ∧
    (cmd_list (scripted { result := some nul_rows }) (Proc.start ())).2.out
      ≠ lines_text (nul_rows.map list_line) := by
  decide

/-- C5, amended: for every result set the store returns for the list query, `cmd_list`
returns 0 and writes one line per row, in order, of the form
`<id> [<m>] <description> (<created_at>)` with every non-NULL text read up to its first
NUL character, a NULL text printed as empty, a NULL `done` read as `0`, and `<m>` being
`x` exactly for `1`; when no text holds a NUL character these are the lines of the
result set itself.  For the empty result set nothing is written.  It returns 1 exactly
when the query fails or no result set is obtained. -/
theorem cmd_list_contract (c : Client σ) (p : Proc σ) :
    let q := c.query select_stmt p.st
    let res := c.store_result q.2
    let r := cmd_list c p
    (r.1 = 1 ↔ (q.1 ≠ 0 ∨ res.1 = none)) ∧
    (r.1 = 0 ↔ (q.1 = 0 ∧ res.1 ≠ none)) ∧
    (∀ rows, q.1 = 0 → res.1 = some rows →
      r.1 = 0 ∧ r.2.err = p.err ∧
      r.2.out = p.out ++ lines_text (rows.map (fun row => list_line row.c_view)) ∧
      ((∀ row ∈ rows, row.nul_free = true) →
        r.2.out = p.out ++ lines_text (rows.map list_line))) ∧
    (q.1 = 0 → res.1 = some [] → r.1 = 0 ∧ r.2.out = p.out) := by
  intro q res r
  have hr : r = cmd_list c p := rfl
  have hq : q = c.query select_stmt p.st := rfl
  have hres : res = c.store_result q.2 := rfl
  simp only [cmd_list, Proc.log, ← hq, ← hres] at hr
  have key : ∀ rows, q.1 = 0 → res.1 = some rows →
      r.1 = 0 ∧ r.2.err = p.err ∧
      r.2.out = p.out ++ lines_text (rows.map (fun row => list_line row.c_view)) := by
    intro rows h0 hrows
    have hpr : (fun row => list_line row.c_view) = print_row := by
      funext row; exact (print_row_eq row).symm
    rw [hpr]
    simp [hr, h0, hrows, fold_cout_out, fold_cout_rest]
  refine ⟨?_, ?_, ?_, ?_⟩
  · by_cases h : q.1 = 0
    · cases hres1 : res.1 <;> simp [hr, h, hres1]
    · simp [hr, h]
  · by_cases h : q.1 = 0
    · cases hres1 : res.1 <;> simp [hr, h, hres1]
    · simp [hr, h]
  · intro rows h0 hrows
    obtain ⟨k1, k2, k3⟩ := key rows h0 hrows
    refine ⟨k1, k2, k3, ?_⟩
    intro hnul
    rw [k3]
    congr 2
    apply List.map_congr_left
    intro row hrow
    rw [c_view_of_nul_free row (hnul row hrow)]
  · intro h0 hrows
    obtain ⟨k1, -, k3⟩ := key [] h0 hrows
    exact ⟨k1, by simpa [lines_text] using k3⟩

/-- C5 amended, at a three-row result set. -/
theorem cmd_list_contract_witness :
    (cmd_list (scripted { result := some sample_rows }) (Proc.start ())).2.out
      = "1 [x] buy milk (t1)\n2 [ ]  ()\n [ ] x (t3)\n" :=
  (((cmd_list_contract (scripted { result := some sample_rows }) (Proc.start ())).2.2.1
    sample_rows (by decide) (by decide)).2.2.2 (by decide)).trans (by decide)

/-! ## Add followed by list on the model store -/

/-- The state of the model store after `cmd_add`. -/
theorem cmd_add_mysql (d : String) (p : Proc Db) :
    (cmd_add mysql d p).1 = some 0 ∧
    (cmd_add mysql d p).2.st.todos = p.st.todos ++ [⟨p.st.auto_increment, d, false, p.st.now⟩] ∧
    (cmd_add mysql d p).2.st.auto_increment = p.st.auto_increment + 1 ∧
    (cmd_add mysql d p).2.st.now = p.st.now ∧
    (cmd_add mysql d p).2.calls = p.calls ++
      [.real_escape_string d, .query (insert_stmt (mysql_real_escape_string d)), .insert_id] := by
  have hc := c_str_of_nul_free _ (insert_stmt_nul_free _ (escape_nul_free d))
  have hp := read_insert_stmt d
  rw [hc] at hp
  simp [cmd_add, escape_str, Proc.log, Proc.cout, mysql, Db.exec, hc, hp]

theorem wf_iff (db : Db) :
    db.wf = true ↔ (∀ t ∈ db.todos, t.id < db.auto_increment) ∧ nul_free db.now = true := by
  simp [Db.wf]

/-- Well-formedness of the model store is kept by `cmd_add`. -/
theorem wf_after_add (d : String) (p : Proc Db) (h : p.st.wf = true) :
    (cmd_add mysql d p).2.st.wf = true := by
  obtain ⟨-, a2, a3, a4, -⟩ := cmd_add_mysql d p
  obtain ⟨h1, h2⟩ := (wf_iff _).mp h
  rw [wf_iff, a2, a3, a4]
  refine ⟨fun t ht => ?_, h2⟩
  rcases List.mem_append.mp ht with ht | ht
  · exact Nat.lt_succ_of_lt (h1 t ht)
  · have : t = ⟨p.st.auto_increment, d, false, p.st.now⟩ := by simpa using ht
    rw [this]
    exact Nat.lt_succ_self _

theorem create_db_stmt_not_repository (cfg : DBConfig) :
    is_repository_stmt (create_db_stmt cfg) = false := by
  have h : ("CREATE DATABASE IF NOT EXISTS " ++ cfg.dbname ++ ";").data
      = 'C' :: ("REATE DATABASE IF NOT EXISTS ".data ++ cfg.dbname.data ++ ";".data) := by
    simp [String.data_append]
  have hC : ('C' != NUL) = true := by decide
  simp [is_repository_stmt, create_db_stmt, c_str, h, List.takeWhile_cons, hC, drop_head]

theorem schema_stmt_not_repository : is_repository_stmt schema_stmt = false := by decide

theorem cmd_add_calls (c : Client σ) (d : String) (p : Proc σ) :
    ∃ k, (cmd_add c d p).2.calls = p.calls ++ k ∧ quiet k = true := by
  cases he : c.real_escape_string p.st d with
  | none =>
    exact ⟨[.real_escape_string d], by simp [cmd_add, escape_str, he, Proc.log],
      by simp [quiet]⟩
  | some esc =>
    by_cases h : (c.query (c_str (insert_stmt esc)) p.st).1 = 0
    · exact ⟨[.real_escape_string d, .query (c_str (insert_stmt esc)), .insert_id],
        by simp [cmd_add, escape_str, he, Proc.log, Proc.cout, h], by simp [quiet]⟩
    · exact ⟨[.real_escape_string d, .query (c_str (insert_stmt esc)), .error],
        by simp [cmd_add, escape_str, he, Proc.log, Proc.cerr, h], by simp [quiet]⟩

theorem cmd_list_calls (c : Client σ) (p : Proc σ) :
    ∃ k, (cmd_list c p).2.calls = p.calls ++ k ∧ quiet k = true := by
  by_cases h : (c.query select_stmt p.st).1 = 0
  · cases hres : (c.store_result (c.query select_stmt p.st).2).1 with
    | none =>
      exact ⟨[.query select_stmt, .store_result, .error],
        by simp [cmd_list, Proc.log, Proc.cerr, h, hres], by simp [quiet]⟩
    | some rows =>
      exact ⟨[.query select_stmt, .store_result, .free_result],
        by simp [cmd_list, Proc.log, h, hres, fold_cout_rest], by simp [quiet]⟩
  · exact ⟨[.query select_stmt, .error],
      by simp [cmd_list, Proc.log, Proc.cerr, h], by simp [quiet]⟩

theorem cmd_done_calls (c : Client σ) (id : String) (p : Proc σ) :
    ∃ k, (cmd_done c id p).2.calls = p.calls ++ k ∧ quiet k = true := by
  by_cases h : (c.query (c_str (update_stmt id)) p.st).1 = 0
  · by_cases h2 : c.affected_rows (c.query (c_str (update_stmt id)) p.st).2 = 0
    · exact ⟨[.query (c_str (update_stmt id)), .affected_rows],
        by simp [cmd_done, Proc.log, Proc.cerr, h, h2], by simp [quiet]⟩
    · exact ⟨[.query (c_str (update_stmt id)), .affected_rows],
        by simp [cmd_done, Proc.log, Proc.cout, h, h2], by simp [quiet]⟩
  · exact ⟨[.query (c_str (update_stmt id)), .error], by simp [cmd_done, Proc.log, Proc.cerr, h], by simp [quiet]⟩

theorem cmd_remove_calls (c : Client σ) (id : String) (p : Proc σ) :
    ∃ k, (cmd_remove c id p).2.calls = p.calls ++ k ∧ quiet k = true := by
  by_cases h : (c.query (c_str (delete_stmt id)) p.st).1 = 0
  · by_cases h2 : c.affected_rows (c.query (c_str (delete_stmt id)) p.st).2 = 0
    · exact ⟨[.query (c_str (delete_stmt id)), .affected_rows],
        by simp [cmd_remove, Proc.log, Proc.cerr, h, h2], by simp [quiet]⟩
    · exact ⟨[.query (c_str (delete_stmt id)), .affected_rows],
        by simp [cmd_remove, Proc.log, Proc.cout, h, h2], by simp [quiet]⟩
  · exact ⟨[.query (c_str (delete_stmt id)), .error], by simp [cmd_remove, Proc.log, Proc.cerr, h], by simp [quiet]⟩

theorem usage_calls (prog : String) (p : Proc σ) :
    ∃ k, (usage prog p).calls = p.calls ++ k ∧ quiet k = true :=
  ⟨[], by simp [usage, Proc.cout], by simp [quiet]⟩

theorem dispatch_calls (c : Client σ) (prog : String) (args : List String) (p : Proc σ) :
    ∃ k, (dispatch c prog args p).2.calls = p.calls ++ k ∧ quiet k = true := by
  unfold dispatch
  split
  · exact usage_calls prog p
  · split_ifs
    · split
      · exact usage_calls prog p
      · exact cmd_add_calls c _ p
    · exact cmd_list_calls c p
    · split
      · exact usage_calls prog p
      · exact cmd_done_calls c _ p
    · split
      · exact usage_calls prog p
      · exact cmd_remove_calls c _ p
    · exact usage_calls prog p

/-- The three outcomes of `connect_db`, with the calls each makes: no handle obtained;
a handle obtained, a later stage failed and the handle closed; all stages passed and the
handle returned open.  Only the create-database statement is ever sent. -/
theorem connect_db_shape (c : Client σ) (cfg : DBConfig) (p : Proc σ) :
    (connect_db c cfg p).2.out = p.out ∧ (connect_db c cfg p).2.err = p.err ∧
    (((connect_db c cfg p).1 = none ∧ (connect_db c cfg p).2.calls = p.calls ++ [.init false]) ∨
     ((connect_db c cfg p).1 = none ∧ ∃ m,
        (connect_db c cfg p).2.calls = p.calls ++ (.init true :: m ++ [.close]) ∧
        quiet m = true ∧ ∀ q, .query q ∈ m → q = create_db_stmt cfg) ∨
     ((connect_db c cfg p).1 = some .handle ∧ ∃ m,
        (connect_db c cfg p).2.calls = p.calls ++ (.init true :: m) ∧
        quiet m = true ∧ ∀ q, .query q ∈ m → q = create_db_stmt cfg)) := by
  by_cases h0 : c.init p.st = true
  · by_cases h1 : (c.real_connect cfg p.st).1 = true
    · by_cases h2 : (c.query (create_db_stmt cfg) (c.real_connect cfg p.st).2).1 = 0
      · by_cases h3 : (c.select_db cfg.dbname
            (c.query (create_db_stmt cfg) (c.real_connect cfg p.st).2).2).1 = 0
        · refine ⟨?_, ?_, Or.inr (Or.inr ⟨?_, [.real_connect cfg.host cfg.user cfg.pass cfg.port,
            .query (create_db_stmt cfg), .select_db cfg.dbname], ?_, ?_, ?_⟩)⟩ <;>
            simp_all [connect_db, create_db_stmt, Proc.log, quiet]
        · refine ⟨?_, ?_, Or.inr (Or.inl ⟨?_, [.real_connect cfg.host cfg.user cfg.pass cfg.port,
            .query (create_db_stmt cfg), .select_db cfg.dbname], ?_, ?_, ?_⟩)⟩ <;>
            simp_all [connect_db, create_db_stmt, Proc.log, quiet]
      · refine ⟨?_, ?_, Or.inr (Or.inl ⟨?_, [.real_connect cfg.host cfg.user cfg.pass cfg.port,
          .query (create_db_stmt cfg)], ?_, ?_, ?_⟩)⟩ <;>
          simp_all [connect_db, create_db_stmt, Proc.log, quiet]
    · refine ⟨?_, ?_, Or.inr (Or.inl ⟨?_, [.real_connect cfg.host cfg.user cfg.pass cfg.port],
        ?_, ?_, ?_⟩)⟩ <;>
        simp_all [connect_db, create_db_stmt, Proc.log, quiet]
  · refine ⟨?_, ?_, Or.inl ⟨?_, ?_⟩⟩ <;> simp_all [connect_db, Proc.log]

/-- The five ways through `main`. -/
theorem main_shape (c : Client σ) (cfg : DBConfig) (prog : String) (args : List String) (s : σ) :
    (args = [] → main c cfg prog args s = (some 1, usage prog (Proc.start s))) ∧
    (args ≠ [] → (connect_db c cfg (Proc.start s)).1 = none →
      main c cfg prog args s = (some 1, (connect_db c cfg (Proc.start s)).2.cerr
        "Failed to connect to MySQL. Ensure service is running and credentials are correct.\n")) ∧
    (args ≠ [] → (connect_db c cfg (Proc.start s)).1 ≠ none →
      (ensure_schema c (connect_db c cfg (Proc.start s)).2).1 = false →
      main c cfg prog args s =
        (some 1, (((ensure_schema c (connect_db c cfg (Proc.start s)).2).2.log .error).cerr
          ("Failed to ensure schema: " ++
            c.error (ensure_schema c (connect_db c cfg (Proc.start s)).2).2.st ++ "\n")).log
          .close)) ∧
    (args ≠ [] → (connect_db c cfg (Proc.start s)).1 ≠ none →
      (ensure_schema c (connect_db c cfg (Proc.start s)).2).1 = true →
      ∀ rc, (dispatch c prog args (ensure_schema c (connect_db c cfg (Proc.start s)).2).2).1
          = some rc →
      main c cfg prog args s =
        (some rc,
         (dispatch c prog args (ensure_schema c (connect_db c cfg (Proc.start s)).2).2).2.log
          .close)) ∧
    (args ≠ [] → (connect_db c cfg (Proc.start s)).1 ≠ none →
      (ensure_schema c (connect_db c cfg (Proc.start s)).2).1 = true →
      (dispatch c prog args (ensure_schema c (connect_db c cfg (Proc.start s)).2).2).1 = none →
      main c cfg prog args s =
        (none, (dispatch c prog args (ensure_schema c (connect_db c cfg (Proc.start s)).2).2).2))
    := by
  cases args with
  | nil => simp [main]
  | cons a rest =>
    refine ⟨by simp, ?_, ?_, ?_, ?_⟩
    · intro _ h
      simp [main, h]
    · intro _ h he
      cases hc : (connect_db c cfg (Proc.start s)).1 with
      | none => exact absurd hc h
      | some m => simp [main, hc, he]
    · intro _ h he rc hd
      cases hc : (connect_db c cfg (Proc.start s)).1 with
      | none => exact absurd hc h
      | some m => simp [main, hc, he, hd]
    · intro _ h he hd
      cases hc : (connect_db c cfg (Proc.start s)).1 with
      | none => exact absurd hc h
      | some m => simp [main, hc, he, hd]

theorem ensure_schema_calls (c : Client σ) (p : Proc σ) :
    (ensure_schema c p).2.calls = p.calls ++ [.query schema_stmt] ∧
    (ensure_schema c p).2.out = p.out ∧ (ensure_schema c p).2.err = p.err := by
  simp [ensure_schema, Proc.log]

/-- The calls of a whole run.  When `main` returns: none, a failed `mysql_init`, or one
handle obtained first and closed last with no other close or init in between.  When
`main` is left by an exception: one handle obtained first and no close at all. -/
theorem main_calls (c : Client σ) (cfg : DBConfig) (prog : String) (args : List String) (s : σ) :
    ((main c cfg prog args s).1 ≠ none ∧
      ((main c cfg prog args s).2.calls = [] ∨
       (main c cfg prog args s).2.calls = [.init false] ∨
       ∃ m, (main c cfg prog args s).2.calls = .init true :: m ++ [.close] ∧ quiet m = true)) ∨
    ((main c cfg prog args s).1 = none ∧
      ∃ m, (main c cfg prog args s).2.calls = .init true :: m ∧ quiet m = true) := by
  obtain ⟨m1, m2, m3, m4, m5⟩ := main_shape c cfg prog args s
  by_cases ha : args = []
  · left; rw [m1 ha]; simp [usage, Proc.cout, Proc.start]
  · obtain ⟨-, -, hc⟩ := connect_db_shape c cfg (Proc.start s)
    rcases hc with ⟨hn, hcalls⟩ | ⟨hn, m, hcalls, hq, -⟩ | ⟨hs, m, hcalls, hq, -⟩
    · left; rw [m2 ha hn]
      refine ⟨by simp, Or.inr (Or.inl ?_)⟩
      simp only [Proc.cerr]; rw [hcalls]; simp [Proc.start]
    · left; rw [m2 ha hn]
      refine ⟨by simp, Or.inr (Or.inr ⟨m, ?_, hq⟩)⟩
      simp only [Proc.cerr]; rw [hcalls]; simp [Proc.start]
    · have hne : (connect_db c cfg (Proc.start s)).1 ≠ none := by simp [hs]
      obtain ⟨e1, -, -⟩ := ensure_schema_calls c (connect_db c cfg (Proc.start s)).2
      cases he : (ensure_schema c (connect_db c cfg (Proc.start s)).2).1 with
      | false =>
        left; rw [m3 ha hne he]
        refine ⟨by simp, Or.inr (Or.inr ⟨m ++ [.query schema_stmt, .error], ?_, ?_⟩)⟩
        · simp only [Proc.log, Proc.cerr]; rw [e1, hcalls]; simp [Proc.start]
        · simp_all [quiet]
      | true =>
        obtain ⟨k, hk, hkq⟩ := dispatch_calls c prog args
          (ensure_schema c (connect_db c cfg (Proc.start s)).2).2
        cases hd : (dispatch c prog args
            (ensure_schema c (connect_db c cfg (Proc.start s)).2).2).1 with
        | none =>
          right; rw [m5 ha hne he hd]
          refine ⟨rfl, m ++ [.query schema_stmt] ++ k, ?_, ?_⟩
          · show (dispatch c prog args
                (ensure_schema c (connect_db c cfg (Proc.start s)).2).2).2.calls = _
            rw [hk, e1, hcalls]; simp [Proc.start]
          · simp_all [quiet]
        | some rc =>
          left; rw [m4 ha hne he rc hd]
          refine ⟨by simp, Or.inr (Or.inr ⟨m ++ [.query schema_stmt] ++ k, ?_, ?_⟩)⟩
          · simp only [Proc.log]; rw [hk, e1, hcalls]; simp [Proc.start]
          · simp_all [quiet]

theorem quiet_counts (m : List Call) (h : quiet m = true) :
    m.count .close = 0 ∧ m.count (.init true) = 0 := by
  simp only [quiet, List.all_eq_true, Bool.and_eq_true, bne_iff_ne] at h
  constructor
  · exact List.count_eq_zero.mpr (fun hm => (h _ hm).1 rfl)
  · exact List.count_eq_zero.mpr (fun hm => (h _ hm).2 rfl)

theorem last_of_framed (a b : Call) (m : List Call) :
    (a :: (m ++ [b])).getLast? = some b := by
  have h : a :: (m ++ [b]) = (a :: m) ++ [b] := rfl
  rw [h, List.getLast?_append]
  rfl

/-! ## Connection lifetime -/

/-- Whenever `main` returns, a handle is obtained at most once, the number of closes
equals the number of handles obtained, and when a handle was obtained the run's first
call obtains it and its last call closes it.  On every failing path of `connect_db` the
same holds for the calls it makes; on its succeeding path it obtains one handle and
returns it unclosed. -/
theorem handle_closed_on_return (c : Client σ) (cfg : DBConfig) (prog : String)
    (args : List String) (s : σ) (p : Proc σ) :
    ((main c cfg prog args s).1 ≠ none →
      (main c cfg prog args s).2.calls.count (.init true) ≤ 1 ∧
      (main c cfg prog args s).2.calls.count .close
        = (main c cfg prog args s).2.calls.count (.init true) ∧
      (.init true ∈ (main c cfg prog args s).2.calls →
        (main c cfg prog args s).2.calls.head? = some (.init true) ∧
        (main c cfg prog args s).2.calls.getLast? = some .close)) ∧
    (∃ j, (connect_db c cfg p).2.calls = p.calls ++ j ∧ j.count (.init true) ≤ 1 ∧
      ((connect_db c cfg p).1 = none →
        j.count .close = j.count (.init true) ∧
        (.init true ∈ j → j.head? = some (.init true) ∧ j.getLast? = some .close)) ∧
      ((connect_db c cfg p).1 ≠ none →
        j.count .close = 0 ∧ j.count (.init true) = 1)) := by
  constructor
  · intro hret
    rcases main_calls c cfg prog args s with ⟨-, h | h | ⟨m, h, hq⟩⟩ | ⟨hab, -⟩
    · simp [h]
    · simp [h]
    · obtain ⟨q1, q2⟩ := quiet_counts m hq
      rw [h]
      simp [List.count_cons, List.count_append, q1, q2, last_of_framed]
    · exact absurd hab hret
  · obtain ⟨-, -, h⟩ := connect_db_shape c cfg p
    rcases h with ⟨hn, hc⟩ | ⟨hn, m, hc, hq, -⟩ | ⟨hs, m, hc, hq, -⟩
    · exact ⟨_, hc, by simp, fun _ => by simp, fun h => absurd hn h⟩
    · obtain ⟨q1, q2⟩ := quiet_counts m hq
      refine ⟨_, hc, ?_, fun _ => ?_, fun h => absurd hn h⟩
      · simp [List.count_cons, List.count_append, q2]
      · simp [List.count_cons, List.count_append, q1, q2, last_of_framed]
    · obtain ⟨q1, q2⟩ := quiet_counts m hq
      refine ⟨_, hc, ?_, fun h => ?_, fun _ => ?_⟩
      · simp [List.count_cons, q2]
      · simp [hs] at h
      · simp [List.count_cons, q1, q2]

/-- Whenever `main` is left by an exception, the handle it obtained is never closed. -/
theorem handle_open_on_abort (c : Client σ) (cfg : DBConfig) (prog : String)
    (args : List String) (s : σ) (h : (main c cfg prog args s).1 = none) :
    (main c cfg prog args s).2.calls.count (.init true) = 1 ∧
    (main c cfg prog args s).2.calls.count .close = 0 := by
  rcases main_calls c cfg prog args s with ⟨hret, -⟩ | ⟨-, m, hm, hq⟩
  · exact absurd h hret
  · obtain ⟨q1, q2⟩ := quiet_counts m hq
    rw [hm]
    simp [List.count_cons, q1, q2]

set_option maxRecDepth 100000 in
/-- C7: on the run `add "buy milk"` against a store for which the escaping routine
reports its error, `main` obtains a connection handle, is left by the exception of
`escape_str` and never closes the handle: the calls made end with the escaping call
and contain no `mysql_close`. -/
theorem handle_left_open :
    (main (scripted { escape_ok := false }) {} "todo" ["add", "buy milk"] ()).1 = none ∧
    (main (scripted { escape_ok := false }) {} "todo" ["add", "buy milk"] ()).2.calls
      = [.init true, .real_connect "127.0.0.1" "root" "" 3306,
         .query "CREATE DATABASE IF NOT EXISTS todo_cli_db;", .select_db "todo_cli_db",
         .query schema_stmt, .real_escape_string "buy milk"] ∧
    (main (scripted { escape_ok := false }) {} "todo" ["add", "buy milk"] ()).2.calls.count
      (.init true) = 1 ∧
    (main (scripted { escape_ok := false }) {} "todo" ["add", "buy milk"] ()).2.calls.count
      .close = 0 := by
  decide

/-! ## Exit codes and output of `main` -/

theorem dispatch_missing_argument (c : Client σ) (prog verb : String) (p : Proc σ)
    (hv : verb = "add" ∨ verb = "done" ∨ verb = "remove") :
    dispatch c prog [verb] p = (some 1, usage prog p) := by
  rcases hv with rfl | rfl | rfl <;> simp [dispatch]

theorem dispatch_unknown (c : Client σ) (prog verb : String) (rest : List String) (p : Proc σ)
    (h1 : verb ≠ "add") (h2 : verb ≠ "list") (h3 : verb ≠ "done") (h4 : verb ≠ "remove") :
    dispatch c prog (verb :: rest) p = (some 1, usage prog p) := by
  simp [dispatch, h1, h2, h3, h4]

theorem dispatch_known (c : Client σ) (prog a : String) (rest : List String) (p : Proc σ) :
    dispatch c prog ("add" :: a :: rest) p = cmd_add c a p ∧
    dispatch c prog ("list" :: rest) p = (some (cmd_list c p).1, (cmd_list c p).2) ∧
    dispatch c prog ("done" :: a :: rest) p = (some (cmd_done c a p).1, (cmd_done c a p).2) ∧
    dispatch c prog ("remove" :: a :: rest) p
      = (some (cmd_remove c a p).1, (cmd_remove c a p).2) := by
  simp [dispatch]

/-- A run whose connection or schema stage fails returns 1. -/
theorem main_not_ready (c : Client σ) (cfg : DBConfig) (prog : String) (args : List String)
    (s : σ) (h : (connect_db c cfg (Proc.start s)).1 = none ∨
      (ensure_schema c (connect_db c cfg (Proc.start s)).2).1 = false) :
    (main c cfg prog args s).1 = some 1 := by
  obtain ⟨m1, m2, m3, -, -⟩ := main_shape c cfg prog args s
  by_cases ha : args = []
  · rw [m1 ha]
  · by_cases hc : (connect_db c cfg (Proc.start s)).1 = none
    · rw [m2 ha hc]
    · rcases h with h | h
      · exact absurd h hc
      · rw [m3 ha hc h]

/-- A run whose connection and schema stages succeed returns what the dispatch gives. -/
theorem main_ready (c : Client σ) (cfg : DBConfig) (prog : String) (args : List String)
    (s : σ) (ha : args ≠ []) (hc : (connect_db c cfg (Proc.start s)).1 ≠ none)
    (he : (ensure_schema c (connect_db c cfg (Proc.start s)).2).1 = true) (rc : Int)
    (hd : (dispatch c prog args (ensure_schema c (connect_db c cfg (Proc.start s)).2).2).1
      = some rc) :
    main c cfg prog args s = (some rc,
      (dispatch c prog args (ensure_schema c (connect_db c cfg (Proc.start s)).2).2).2.log
        .close) :=
  (main_shape c cfg prog args s).2.2.2.1 ha hc he rc hd

set_option maxRecDepth 100000 in
/-- A run against a store that rejects the `CREATE TABLE`: `ensure_schema` reports the
failure, `main` writes the schema failure text, closes the handle and returns 1. -/
theorem schema_failure_run :
    (ensure_schema (scripted { schema_rc := 1, error := "denied" }) (Proc.start ())).1 = false ∧
    (main (scripted { schema_rc := 1, error := "denied" }) {} "todo" ["list"] ()).1 = some 1 ∧
    (main (scripted { schema_rc := 1, error := "denied" }) {} "todo" ["list"] ()).2.err
      = "Failed to ensure schema: denied\n" ∧
    (main (scripted { schema_rc := 1, error := "denied" }) {} "todo" ["list"] ()).2.calls
      = [.init true, .real_connect "127.0.0.1" "root" "" 3306,
         .query "CREATE DATABASE IF NOT EXISTS todo_cli_db;", .select_db "todo_cli_db",
         .query schema_stmt, .error, .close] := by
  decide

/-- C8 as stated fails: `add` without its argument and an `add` whose INSERT the store
rejects both end with exit code 1. -/
theorem missing_argument_counterexample :
    (main (scripted {}) {} "todo" ["add"] ()).1 = some 1 ∧
    (main (scripted { query_rc := 1, error := "server has gone away" }) {} "todo"
      ["add", "buy milk"] ()).1 = some 1 ∧
    (main (scripted { query_rc := 1, error := "server has gone away" }) {} "todo"
      ["add", "buy milk"] ()).2.err = "Insert failed: server has gone away\n" ∧
    ¬ ((main (scripted {}) {} "todo" ["add"] ()).1 ≠
      (main (scripted { query_rc := 1, error := "server has gone away" }) {} "todo"
        ["add", "buy milk"] ()).1) := by
  decide

/-- C8, amended: the exit code `main` returns when `add`, `done` or `remove` is given
without its argument is 1, and the exit code `main` returns when the store rejects the
statement of a Repository operation (or yields no result set for the list query) is 1
as well: the two cases share one exit code. -/
theorem missing_argument_same_code (c : Client σ) (cfg : DBConfig) (prog verb : String) (s : σ)
    (hv : verb = "add" ∨ verb = "done" ∨ verb = "remove") :
    (main c cfg prog [verb] s).1 = some 1 ∧
    ∀ a : String, (connect_db c cfg (Proc.start s)).1 ≠ none →
      (ensure_schema c (connect_db c cfg (Proc.start s)).2).1 = true →
      (∀ esc, c.real_escape_string
            (ensure_schema c (connect_db c cfg (Proc.start s)).2).2.st a = some esc →
        (c.query (c_str (insert_stmt esc))
          (ensure_schema c (connect_db c cfg (Proc.start s)).2).2.st).1 ≠ 0 →
        (main c cfg prog ["add", a] s).1 = some 1) ∧
      (((c.query select_stmt (ensure_schema c (connect_db c cfg (Proc.start s)).2).2.st).1 ≠ 0 ∨
          (c.store_result (c.query select_stmt
            (ensure_schema c (connect_db c cfg (Proc.start s)).2).2.st).2).1 = none) →
        (main c cfg prog ["list"] s).1 = some 1) ∧
      ((c.query (c_str (update_stmt a))
          (ensure_schema c (connect_db c cfg (Proc.start s)).2).2.st).1 ≠ 0 →
        (main c cfg prog ["done", a] s).1 = some 1) ∧
      ((c.query (c_str (delete_stmt a))
          (ensure_schema c (connect_db c cfg (Proc.start s)).2).2.st).1 ≠ 0 →
        (main c cfg prog ["remove", a] s).1 = some 1) := by
  constructor
  · by_cases hr : (connect_db c cfg (Proc.start s)).1 = none ∨
        (ensure_schema c (connect_db c cfg (Proc.start s)).2).1 = false
    · exact main_not_ready c cfg prog _ s hr
    · have hc : (connect_db c cfg (Proc.start s)).1 ≠ none := fun h => hr (Or.inl h)
      have he : (ensure_schema c (connect_db c cfg (Proc.start s)).2).1 = true := by
        cases h : (ensure_schema c (connect_db c cfg (Proc.start s)).2).1
        · exact absurd (Or.inr h) hr
        · rfl
      rw [main_ready c cfg prog [verb] s (by simp) hc he 1
        (by rw [dispatch_missing_argument c prog verb _ hv])]
  · intro a hc he
    have d := dispatch_known c prog a [] (ensure_schema c (connect_db c cfg (Proc.start s)).2).2
    refine ⟨?_, ?_, ?_, ?_⟩
    · intro esc hesc h
      rw [main_ready c cfg prog _ s (by simp) hc he 1
        (by rw [d.1]; simp [cmd_add, escape_str, hesc, Proc.log, h])]
    · intro h
      have h1 : (cmd_list c (ensure_schema c (connect_db c cfg (Proc.start s)).2).2).1 = 1 := by
        by_cases hq : (c.query select_stmt
            (ensure_schema c (connect_db c cfg (Proc.start s)).2).2.st).1 = 0
        · have hn := h.resolve_left (fun hne => hne hq)
          simp [cmd_list, Proc.log, hq, hn]
        · simp [cmd_list, Proc.log, hq]
      rw [main_ready c cfg prog _ s (by simp) hc he 1 (by rw [d.2.1, h1])]
    · intro h
      have h1 : (cmd_done c a (ensure_schema c (connect_db c cfg (Proc.start s)).2).2).1 = 1 := by
        simp [cmd_done, Proc.log, h]
      rw [main_ready c cfg prog _ s (by simp) hc he 1 (by rw [d.2.2.1, h1])]
    · intro h
      have h1 : (cmd_remove c a (ensure_schema c (connect_db c cfg (Proc.start s)).2).2).1 = 1 := by
        simp [cmd_remove, Proc.log, h]
      rw [main_ready c cfg prog _ s (by simp) hc he 1 (by rw [d.2.2.2, h1])]

/-- C8 amended, at `done` without an id and at a `done 1` the store rejects. -/
theorem missing_argument_same_code_witness :
    (main (scripted { query_rc := 1 }) {} "todo" ["done"] ()).1 = some 1 ∧
    (main (scripted { query_rc := 1 }) {} "todo" ["done", "1"] ()).1 = some 1 :=
  ⟨(missing_argument_same_code (scripted { query_rc := 1 }) {} "todo" "done" ()
      (Or.inr (Or.inl rfl))).1,
   ((missing_argument_same_code (scripted { query_rc := 1 }) {} "todo" "done" ()
      (Or.inr (Or.inl rfl))).2 "1" (by decide) (by decide)).2.2.1 (by decide)⟩

/-- C9 as stated fails: with an unknown verb and an unreachable store, `main` returns 1
but writes no usage text. -/
theorem unknown_verb_counterexample :
    (main (scripted { connect_ok := false }) {} "todo" ["frobnicate"] ()).1 = some 1 ∧
    (main (scripted { connect_ok := false }) {} "todo" ["frobnicate"] ()).2.out = "" ∧
    (main (scripted { connect_ok := false }) {} "todo" ["frobnicate"] ()).2.err
      = connect_failure_text ∧
    (main (scripted { connect_ok := false }) {} "todo" ["frobnicate"] ()).2.out
      ≠ usage_text "todo" := by
  decide

/-- C9, amended: with no arguments `main` writes the usage text to standard output and
returns 1 without any call to the store.  With a verb other than `add`, `list`, `done`,
`remove` it returns 1 whatever the store does; it writes the usage text to standard
output when `connect_db` and `ensure_schema` succeed, and otherwise writes nothing to
standard output and the connection or schema failure text to standard error. -/
theorem usage_contract (c : Client σ) (cfg : DBConfig) (prog : String) (args : List String)
    (s : σ) :
    (args = [] →
      (main c cfg prog args s).1 = some 1 ∧ (main c cfg prog args s).2.out = usage_text prog ∧
      (main c cfg prog args s).2.err = "" ∧ (main c cfg prog args s).2.calls = []) ∧
    (∀ verb rest, args = verb :: rest →
      verb ≠ "add" → verb ≠ "list" → verb ≠ "done" → verb ≠ "remove" →
      (main c cfg prog args s).1 = some 1 ∧
      ((connect_db c cfg (Proc.start s)).1 ≠ none →
        (ensure_schema c (connect_db c cfg (Proc.start s)).2).1 = true →
        (main c cfg prog args s).2.out = usage_text prog ∧
        (main c cfg prog args s).2.err = "") ∧
      ((connect_db c cfg (Proc.start s)).1 = none →
        (main c cfg prog args s).2.out = "" ∧
        (main c cfg prog args s).2.err = connect_failure_text) ∧
      ((connect_db c cfg (Proc.start s)).1 ≠ none →
        (ensure_schema c (connect_db c cfg (Proc.start s)).2).1 = false →
        (main c cfg prog args s).2.out = "" ∧
        (main c cfg prog args s).2.err = "Failed to ensure schema: " ++
          c.error (ensure_schema c (connect_db c cfg (Proc.start s)).2).2.st ++ "\n")) := by
  obtain ⟨m1, m2, m3, -, -⟩ := main_shape c cfg prog args s
  obtain ⟨co, ce, -⟩ := connect_db_shape c cfg (Proc.start s)
  obtain ⟨-, eo, ee⟩ := ensure_schema_calls c (connect_db c cfg (Proc.start s)).2
  constructor
  · intro ha
    rw [m1 ha]
    simp [usage, Proc.cout, Proc.start]
  · intro verb rest ha h1 h2 h3 h4
    have hne : args ≠ [] := by simp [ha]
    refine ⟨?_, ?_, ?_, ?_⟩
    · by_cases hr : (connect_db c cfg (Proc.start s)).1 = none ∨
          (ensure_schema c (connect_db c cfg (Proc.start s)).2).1 = false
      · exact main_not_ready c cfg prog _ s hr
      · have hc : (connect_db c cfg (Proc.start s)).1 ≠ none := fun h => hr (Or.inl h)
        have he : (ensure_schema c (connect_db c cfg (Proc.start s)).2).1 = true := by
          cases h : (ensure_schema c (connect_db c cfg (Proc.start s)).2).1
          · exact absurd (Or.inr h) hr
          · rfl
        rw [main_ready c cfg prog args s hne hc he 1
          (by rw [ha, dispatch_unknown c prog verb rest _ h1 h2 h3 h4])]
    · intro hc he
      rw [main_ready c cfg prog args s hne hc he 1
        (by rw [ha, dispatch_unknown c prog verb rest _ h1 h2 h3 h4]),
        ha, dispatch_unknown c prog verb rest _ h1 h2 h3 h4]
      simp only [usage, Proc.cout, Proc.log]
      rw [eo, ee, co, ce]
      simp [Proc.start]
    · intro hc
      rw [m2 hne hc]
      simp only [Proc.cerr]
      rw [co, ce]
      simp [Proc.start, connect_failure_text]
    · intro hc he
      rw [m3 hne hc he]
      simp only [Proc.cerr, Proc.log]
      rw [eo, ee, co, ce]
      simp [Proc.start]

set_option maxRecDepth 100000 in
/-- C9 amended, at an unknown verb on the reachable model store. -/
theorem usage_contract_witness :
    (main mysql {} "todo" ["frobnicate"] (Db.empty "t")).1 = some 1 ∧
    (main mysql {} "todo" ["frobnicate"] (Db.empty "t")).2.out = usage_text "todo" :=
  ⟨((usage_contract mysql {} "todo" ["frobnicate"] (Db.empty "t")).2 "frobnicate" [] rfl
      (by decide) (by decide) (by decide) (by decide)).1,
   (((usage_contract mysql {} "todo" ["frobnicate"] (Db.empty "t")).2 "frobnicate" [] rfl
      (by decide) (by decide) (by decide) (by decide)).2.1 (by decide) (by decide)).1⟩

/-! ## No Repository statement before the store is ready -/

theorem connect_db_queries (c : Client σ) (cfg : DBConfig) (s : σ) (q : String)
    (h : Call.query q ∈ (connect_db c cfg (Proc.start s)).2.calls) : q = create_db_stmt cfg := by
  obtain ⟨-, -, hs⟩ := connect_db_shape c cfg (Proc.start s)
  rcases hs with ⟨-, hc⟩ | ⟨-, m, hc, -, hq⟩ | ⟨-, m, hc, -, hq⟩
  · rw [hc] at h; simp [Proc.start] at h
  · rw [hc] at h
    have : Call.query q ∈ m := by simpa [Proc.start] using h
    exact hq q this
  · rw [hc] at h
    have : Call.query q ∈ m := by simpa [Proc.start] using h
    exact hq q this

theorem ensure_schema_queries (c : Client σ) (cfg : DBConfig) (s : σ) (q : String)
    (h : Call.query q ∈ (ensure_schema c (connect_db c cfg (Proc.start s)).2).2.calls) :
    is_repository_stmt q = false := by
  rw [(ensure_schema_calls c _).1] at h
  rcases List.mem_append.mp h with h | h
  · rw [connect_db_queries c cfg s q h]; exact create_db_stmt_not_repository cfg
  · have : q = schema_stmt := by simpa using h
    rw [this]; exact schema_stmt_not_repository

theorem connect_db_result (c : Client σ) (cfg : DBConfig) (s : σ) :
    (connect_db c cfg (Proc.start s)).1 = some .handle ↔
      (c.init s = true ∧ (c.real_connect cfg s).1 = true ∧
        (c.query (create_db_stmt cfg) (c.real_connect cfg s).2).1 = 0 ∧
        (c.select_db cfg.dbname
          (c.query (create_db_stmt cfg) (c.real_connect cfg s).2).2).1 = 0) := by
  have hfold : c_str ("CREATE DATABASE IF NOT EXISTS " ++ cfg.dbname ++ ";")
      = create_db_stmt cfg := rfl
  simp only [connect_db, Proc.log, Proc.start, hfold]
  by_cases h0 : c.init s = true
  · by_cases h1 : (c.real_connect cfg s).1 = true
    · by_cases h2 : (c.query (create_db_stmt cfg) (c.real_connect cfg s).2).1 = 0
      · by_cases h3 : (c.select_db cfg.dbname
            (c.query (create_db_stmt cfg) (c.real_connect cfg s).2).2).1 = 0
        · simp [h0, h1, h2, h3]
        · simp [h0, h1, h2, h3]
      · simp [h0, h1, h2]
    · simp [h0, h1]
  · simp [h0]

/-- C10: if `connect_db` returns no connection or `ensure_schema` fails, `main` returns 1
and sends no INSERT, SELECT, UPDATE or DELETE.  `connect_db` returns a connection exactly
when the handle is obtained and the handshake, the create-database statement and the
select-database call all succeed; every other case gives the one result `none`, with
the handle, if obtained, already closed.  Whenever `main` sends a Repository statement,
both stages have succeeded and the statement comes after all their calls. -/
theorem repository_only_when_ready (c : Client σ) (cfg : DBConfig) (prog : String)
    (args : List String) (s : σ) :
    (((connect_db c cfg (Proc.start s)).1 = none ∨
        (ensure_schema c (connect_db c cfg (Proc.start s)).2).1 = false) →
      (main c cfg prog args s).1 = some 1 ∧
      ∀ q, Call.query q ∈ (main c cfg prog args s).2.calls → is_repository_stmt q = false) ∧
    ((connect_db c cfg (Proc.start s)).1 = some .handle ↔
      (c.init s = true ∧ (c.real_connect cfg s).1 = true ∧
        (c.query (create_db_stmt cfg) (c.real_connect cfg s).2).1 = 0 ∧
        (c.select_db cfg.dbname
          (c.query (create_db_stmt cfg) (c.real_connect cfg s).2).2).1 = 0)) ∧
    ((connect_db c cfg (Proc.start s)).1 ≠ some .handle →
      (connect_db c cfg (Proc.start s)).1 = none ∧
      (Call.init true ∈ (connect_db c cfg (Proc.start s)).2.calls →
        (connect_db c cfg (Proc.start s)).2.calls.getLast? = some .close)) ∧
    (∀ q, Call.query q ∈ (main c cfg prog args s).2.calls → is_repository_stmt q = true →
      (connect_db c cfg (Proc.start s)).1 = some .handle ∧
      (ensure_schema c (connect_db c cfg (Proc.start s)).2).1 = true ∧
      (∃ k, (main c cfg prog args s).2.calls
          = (ensure_schema c (connect_db c cfg (Proc.start s)).2).2.calls ++ k) ∧
      ∀ q', Call.query q' ∈ (ensure_schema c (connect_db c cfg (Proc.start s)).2).2.calls →
        is_repository_stmt q' = false) := by
  obtain ⟨m1, m2, m3, m4, m5⟩ := main_shape c cfg prog args s
  have first : ((connect_db c cfg (Proc.start s)).1 = none ∨
        (ensure_schema c (connect_db c cfg (Proc.start s)).2).1 = false) →
      ∀ q, Call.query q ∈ (main c cfg prog args s).2.calls → is_repository_stmt q = false := by
    intro h q hq
    by_cases ha : args = []
    · rw [m1 ha] at hq; simp [usage, Proc.cout, Proc.start] at hq
    · by_cases hc : (connect_db c cfg (Proc.start s)).1 = none
      · rw [m2 ha hc] at hq
        have hq2 : Call.query q ∈ (connect_db c cfg (Proc.start s)).2.calls := hq
        rw [connect_db_queries c cfg s q hq2]
        exact create_db_stmt_not_repository cfg
      · rcases h with h | h
        · exact absurd h hc
        · rw [m3 ha hc h] at hq
          have hq2 : Call.query q ∈
              (ensure_schema c (connect_db c cfg (Proc.start s)).2).2.calls ++
                [Call.error, Call.close] := by
            simpa [Proc.log, Proc.cerr] using hq
          rcases List.mem_append.mp hq2 with hq3 | hq3
          · exact ensure_schema_queries c cfg s q hq3
          · simp at hq3
  refine ⟨fun h => ⟨main_not_ready c cfg prog args s h, first h⟩, ?_, ?_, ?_⟩
  · exact connect_db_result c cfg s
  · intro hns
    obtain ⟨-, -, hs⟩ := connect_db_shape c cfg (Proc.start s)
    rcases hs with ⟨hn, hc⟩ | ⟨hn, m, hc, -, -⟩ | ⟨hs, -⟩
    · exact ⟨hn, fun hi => by rw [hc] at hi; simp [Proc.start] at hi⟩
    · refine ⟨hn, fun _ => ?_⟩
      rw [hc]
      simp [Proc.start, last_of_framed]
    · exact absurd hs hns
  · intro q hq hrepo
    have hc : (connect_db c cfg (Proc.start s)).1 ≠ none := by
      intro h
      have := first (Or.inl h) q hq
      simp [hrepo] at this
    have he : (ensure_schema c (connect_db c cfg (Proc.start s)).2).1 = true := by
      cases h : (ensure_schema c (connect_db c cfg (Proc.start s)).2).1
      · have := first (Or.inr h) q hq
        simp [hrepo] at this
      · rfl
    have ha : args ≠ [] := by
      intro ha
      rw [m1 ha] at hq
      simp [usage, Proc.cout, Proc.start] at hq
    refine ⟨?_, he, ?_, fun q' h' => ensure_schema_queries c cfg s q' h'⟩
    · cases h : (connect_db c cfg (Proc.start s)).1 with
      | none => exact absurd h hc
      | some m => cases m; rfl
    · obtain ⟨k, hk, -⟩ := dispatch_calls c prog args
        (ensure_schema c (connect_db c cfg (Proc.start s)).2).2
      cases hd : (dispatch c prog args
          (ensure_schema c (connect_db c cfg (Proc.start s)).2).2).1 with
      | none =>
        refine ⟨k, ?_⟩
        rw [m5 ha hc he hd]
        exact hk
      | some rc =>
        refine ⟨k ++ [.close], ?_⟩
        rw [m4 ha hc he rc hd]
        simp only [Proc.log]
        rw [hk, List.append_assoc]

set_option maxRecDepth 100000 in
/-- C10, at a store that refuses the handshake and at the model store. -/
theorem repository_only_when_ready_witness :
    (main (scripted { connect_ok := false }) {} "todo" ["add", "buy milk"] ()).1 = some 1 ∧
    (∀ q, Call.query q ∈
        (main (scripted { connect_ok := false }) {} "todo" ["add", "buy milk"] ()).2.calls →
      is_repository_stmt q = false) ∧
    Call.query (insert_stmt "buy milk")
      ∈ (main mysql {} "todo" ["add", "buy milk"] (Db.empty "t")).2.calls ∧
    is_repository_stmt (insert_stmt "buy milk") = true :=
  ⟨((repository_only_when_ready (scripted { connect_ok := false }) {} "todo"
      ["add", "buy milk"] ()).1 (Or.inl (by decide))).1,
   ((repository_only_when_ready (scripted { connect_ok := false }) {} "todo"
      ["add", "buy milk"] ()).1 (Or.inl (by decide))).2,
   by decide, by decide⟩

/-! ## Marking a task done twice -/

/-- On the model store, `cmd_done` for a row that is already done (or absent) returns 2:
the statement changes no row. -/
theorem cmd_done_unchanged (id : String) (n : Nat) (p : Proc Db)
    (hid : read_stmt (c_str (update_stmt id)).data = some (.mark_done n))
    (hdone : ∀ t ∈ p.st.todos, t.id = n → t.done = true) :
    (cmd_done mysql id p).1 = 2 ∧
    (cmd_done mysql id p).2.err = p.err ++ ("No task with id=" ++ id ++ "\n") := by
  have hz : (p.st.todos.filter (fun t => t.id = n && !t.done)).length = 0 := by
    rw [List.length_eq_zero, List.filter_eq_nil_iff]
    intro t ht
    by_cases h : t.id = n
    · simp [h, hdone t ht h]
    · simp [h]
  simp [cmd_done, mysql, Db.exec, hid, hz, Proc.log, Proc.cerr]

set_option maxRecDepth 100000 in
/-- C2: on the model store, after `add` returned id 1, the first `done 1` returns 0 and
the listing shows the row as done; the second `done 1`, on the same still-present row,
returns 2 and writes `No task with id=1` to standard error instead of succeeding.  The
row stays done. -/
theorem second_done_reports_no_task :
    (main mysql {} "todo" ["add", "buy milk"] (Db.empty "t")).2.out = "Added task id=1\n" ∧
    (main mysql {} "todo" ["done", "1"] after_add).1 = some 0 ∧
    (main mysql {} "todo" ["done", "1"] after_add).2.out = "Marked done: 1\n" ∧
    (main mysql {} "todo" ["list"] after_done).2.out = "1 [x] buy milk (t)\n" ∧
    (main mysql {} "todo" ["done", "1"] after_done).1 = some 2 ∧
    (main mysql {} "todo" ["done", "1"] after_done).2.out = "" ∧
    (main mysql {} "todo" ["done", "1"] after_done).2.err = "No task with id=1\n" ∧
    after_second_done.todos = [⟨1, "buy milk", true, "t"⟩] ∧
    (main mysql {} "todo" ["list"] after_second_done).2.out = "1 [x] buy milk (t)\n" := by
  decide

/-! ## Identifiers are not sanitized -/

set_option maxRecDepth 100000 in
/-- C4: `cmd_done` and `cmd_remove` put the raw identifier into the statement.  For the
argument `0 OR 1=1` the statement ends in that very text and no escaping call is made;
for an argument with quote characters the statement sent differs from the one built
from the escaped argument.  `cmd_add` does call the escaping routine. -/
theorem id_not_sanitized :
    (main (scripted { affected := 3 }) {} "todo" ["done", "0 OR 1=1"] ()).2.calls
      = [.init true, .real_connect "127.0.0.1" "root" "" 3306,
         .query "CREATE DATABASE IF NOT EXISTS todo_cli_db;", .select_db "todo_cli_db",
         .query schema_stmt, .query "UPDATE todos SET done=1 WHERE id=0 OR 1=1",
         .affected_rows, .close] ∧
    (main (scripted { affected := 3 }) {} "todo" ["remove", "0 OR 1=1"] ()).2.calls
      = [.init true, .real_connect "127.0.0.1" "root" "" 3306,
         .query "CREATE DATABASE IF NOT EXISTS todo_cli_db;", .select_db "todo_cli_db",
         .query schema_stmt, .query "DELETE FROM todos WHERE id=0 OR 1=1",
         .affected_rows, .close] ∧
    (cmd_done (scripted {}) quoted_id (Proc.start ())).2.calls
      = [.query (update_stmt quoted_id), .affected_rows] ∧
    update_stmt quoted_id ≠ update_stmt (mysql_real_escape_string quoted_id) ∧
    (cmd_remove (scripted {}) quoted_id (Proc.start ())).2.calls
      = [.query (delete_stmt quoted_id), .affected_rows] ∧
    delete_stmt quoted_id ≠ delete_stmt (mysql_real_escape_string quoted_id) ∧
    (cmd_add (scripted {}) quoted_id (Proc.start ())).2.calls
      = [.real_escape_string quoted_id,
         .query (insert_stmt (mysql_real_escape_string quoted_id)), .insert_id] := by
  decide

end TodoCli

